import Mathlib

/-!
# Verification of the KITTI point-cloud replay node

Shallow embedding of
`src/kitti_data_reader_nodes/point_cloud_reader_publisher_node.cpp`.

The embedding covers the two components the specification singles out:

* the **Frame Store** — the constructor loop that decodes each `.bin`
  source, skips empty decodes, and caches `PointCloud2` messages
  (source lines 85-147), together with the binary decoder
  `loadPointCloudDataFromBin` (lines 218-251);
* the **Playback Scheduler** — the self-rescheduling timer callback
  installed by `updateTimerAndPublish` (lines 182-216), plus the initial
  arming of the timer in the constructor (line 176).

Modelling conventions:

* raw file bytes are `List Nat` (each entry one byte); a `float` is kept
  as its 32-bit little-endian bit pattern (a `Nat`), since the code only
  ever `memcpy`s float payloads and never does float arithmetic on them;
* `std::vector` reads are total where the C++ index is provably in
  bounds and `Option`-valued where an out-of-bounds read (undefined
  behaviour in C++) can occur: `none` models the out-of-bounds access;
* `std::int64_t` timestamps are `Int`; `std::uint32_t current_index_`
  wraps modulo `UINT32_MOD` exactly where the C++ increment does;
* an unreadable file (`!input.good()`) is a `none` source and yields the
  empty point list, exactly as the early `return {}` does.
-/

set_option maxHeartbeats 1000000

namespace KittiNode

/-- `MAX_POINTS` constant declared at source line 50; it is never read
anywhere else in the translation unit. -/
def MAX_POINTS : Nat := 200000

/-- Size of the read buffer in floats (source line 221). -/
def BUFFER_FLOATS : Nat := 1000000

/-- Size of the read buffer in bytes: `buffer_size * sizeof(float)`
(source line 232). -/
def BUFFER_BYTES : Nat := 4000000

/-- The fixed boundary sleep `100'000'000ns` (source line 198). -/
def BOUNDARY_WAIT_NS : Int := 100000000

/-- Modulus of `std::uint32_t`, the type of `current_index_`. -/
def UINT32_MOD : Nat := 4294967296

/-- `common::PointCartesian`: four float32 fields, kept as bit
patterns. -/
structure PointCartesian where
  x_m : Nat
  y_m : Nat
  z_m : Nat
  intensity : Nat
deriving DecidableEq

/-- One little-endian float32 word assembled from four bytes. -/
def leWord (b0 b1 b2 b3 : Nat) : Nat :=
  b0 + 256 * b1 + 65536 * b2 + 16777216 * b3

/-- Group a byte stream into complete little-endian 32-bit words;
a trailing group of fewer than four bytes yields no word, mirroring
`number_of_floats = input.gcount() / sizeof(float)` (source line 233). -/
def groupWords : List Nat → List Nat
  | [] => []
  | [_] => []
  | [_, _] => []
  | [_, _, _] => []
  | b0 :: b1 :: b2 :: b3 :: rest => leWord b0 b1 b2 b3 :: groupWords rest

/-- The word left in buffer slot `n` by the trailing `len mod 4` file
bytes that `input.read` writes past the last complete float: those
bytes occupy the slot's low positions and the rest of the freshly
value-initialised buffer (source line 222) is zero. -/
def tailWord : List Nat → Nat
  | [] => 0
  | [b0] => leWord b0 0 0 0
  | [b0, b1] => leWord b0 b1 0 0
  | [b0, b1, b2] => leWord b0 b1 b2 0
  | _ :: _ :: _ :: _ :: rest => tailWord rest

/-- The prefix of the read buffer that the copy loop of lines 239-246
can reach, for a truncated byte list `tb`: the
`n = tb.length / 4` complete floats (line 233), plus buffer slot `n`
when the loop's final iteration reaches it (exactly when
`n % 4 ≠ 0`) — that slot's low bytes are the file's trailing
partial-float bytes and its high bytes are zero.  Every later slot the
loop can read is entirely zero and is represented by the zero padding
in `pointsFromFloats`. -/
def bufferWords (tb : List Nat) : List Nat :=
  if (tb.length / 4) % 4 = 0 then groupWords tb
  else groupWords tb ++ [tailWord tb]

/-- The buffer contents reachable by the copy loop: `input.read` fills
at most `BUFFER_BYTES` bytes (source line 232), only complete floats
count towards `number_of_floats` (line 233), and the partial-float
bytes, if the loop reaches their slot, are read as `tailWord`. -/
def readFloats (bytes : List Nat) : List Nat :=
  bufferWords (bytes.take BUFFER_BYTES)

/-- The copy loop of source lines 239-246: `for (i = 0; i < n; i += 4)`
reading `data_buffer[i .. i+3]`.  Applied to `bufferWords`, whose last
entry is buffer slot `n` whenever the loop reads it; all further slots
the loop can touch hold `0.0f` from value-initialisation, which the
padded base cases reproduce. -/
def pointsFromFloats : List Nat → List PointCartesian
  | [] => []
  | [f0] => [⟨f0, 0, 0, 0⟩]
  | [f0, f1] => [⟨f0, f1, 0, 0⟩]
  | [f0, f1, f2] => [⟨f0, f1, f2, 0⟩]
  | f0 :: f1 :: f2 :: f3 :: rest => ⟨f0, f1, f2, f3⟩ :: pointsFromFloats rest

/-- A data source: `none` is a file the stream cannot read
(`!input.good()`), `some bytes` a readable file with those contents. -/
abbrev Source := Option (List Nat)

/-- `loadPointCloudDataFromBin` (source lines 218-251): an unreadable
file returns the empty vector (line 229); otherwise the bytes are
decoded as consecutive little-endian float32 quadruples. -/
def loadPointCloudDataFromBin (file : Source) : List PointCartesian :=
  match file with
  | none => []
  | some bytes => pointsFromFloats (readFloats bytes)

/-- A cached frame: the capture timestamp paired with the decoded
payload (the `PointCloud2` message of source lines 107-146, of which the
claims only inspect payload identity and ordering). -/
structure Frame where
  stamp : Int
  points : List PointCartesian
deriving DecidableEq

/-- The constructor loop of source lines 93-147: decode source `i`,
skip it when the decode is empty (lines 98-102), otherwise append the
frame built from `timestamp_cache_[i]`.  Parametric in the decoder `d`
so that decode-independence of structural failures is expressible; the
node instantiates `d := loadPointCloudDataFromBin`. -/
def buildCache (d : Source → List PointCartesian) :
    List Int → List Source → List Frame
  | t :: ts, src :: srcs =>
    if (d src).isEmpty then buildCache d ts srcs
    else ⟨t, d src⟩ :: buildCache d ts srcs
  | _, _ => []

/-- Failures of node construction.  `CountMismatch` is the
`std::runtime_error` thrown at source lines 86-89.
`TimestampIndexOutOfRange` models the out-of-bounds vector reads
`timestamp_cache_[1]` / `timestamp_cache_[0]` at source line 176
(undefined behaviour in C++) when fewer than two timestamps exist. -/
inductive BuildError
  | CountMismatch
  | TimestampIndexOutOfRange
deriving DecidableEq

/-- The mutable node state: `timestamp_cache_`, `point_cloud_cache_` and
`current_index_` (source lines 253-255). -/
structure NodeState where
  timestamp_cache : List Int
  point_cloud_cache : List Frame
  current_index : Nat
deriving DecidableEq

/-- The interval armed by the constructor at source line 176:
`timestamp_cache_[1] - timestamp_cache_[0]`; `none` when either read is
out of bounds. -/
def initialInterval (ts : List Int) : Option Int :=
  match ts.get? 1, ts.get? 0 with
  | some t1, some t0 => some (t1 - t0)
  | _, _ => none

/-- Node construction (source lines 54-177) after the external
collaborators have produced the timestamp list and the ordered source
list: the count check of lines 86-89 runs before any source is decoded,
then the cache is built, `current_index_` is set to 0 (line 150), and
the first timer interval is computed (line 176). -/
def nodeInit (d : Source → List PointCartesian) (ts : List Int)
    (srcs : List Source) : Except BuildError (Int × NodeState) :=
  if srcs.length ≠ ts.length then Except.error BuildError.CountMismatch
  else
    match initialInterval ts with
    | none => Except.error BuildError.TimestampIndexOutOfRange
    | some w => Except.ok (w, ⟨ts, buildCache d ts srcs, 0⟩)

/-- One observable timer firing: the cursor position published, the wait
installed for the next firing, and the successor state. -/
structure Firing where
  published : Nat
  wait : Int
  next : NodeState
deriving DecidableEq

/-- The wraparound check of source lines 187-191: reset the cursor to 0
when it equals the cache size, before anything is published. -/
def wrapCursor (s : NodeState) : Nat :=
  if s.current_index = s.point_cloud_cache.length then 0 else s.current_index

/-- The wait computation of source lines 198-207: the 100 ms boundary
sleep unless `current_index_ + 1 != timestamp_cache_.size()`, in which
case the difference of consecutive timestamps is used, unclamped.
`none` models an out-of-bounds timestamp read. -/
def computeWait (ts : List Int) (c0 : Nat) : Option Int :=
  if c0 + 1 ≠ ts.length then
    match ts.get? (c0 + 1), ts.get? c0 with
    | some t1, some t0 => some (t1 - t0)
    | _, _ => none
  else some BOUNDARY_WAIT_NS

/-- Closed form of the wait at an in-bounds cursor. -/
def waitAt (ts : List Int) (c0 : Nat) : Int :=
  if c0 + 1 ≠ ts.length then ts.getD (c0 + 1) 0 - ts.getD c0 0
  else BOUNDARY_WAIT_NS

/-- The timer callback body of source lines 185-215: wrap the cursor,
publish `point_cloud_cache_[current_index_]`, compute the next wait,
increment the cursor (a `std::uint32_t`), and re-arm.  `none` models an
out-of-bounds vector read (undefined behaviour in C++). -/
def timerCallback (s : NodeState) : Option Firing :=
  match s.point_cloud_cache.get? (wrapCursor s),
        computeWait s.timestamp_cache (wrapCursor s) with
  | some _, some w =>
    some ⟨wrapCursor s, w,
          ⟨s.timestamp_cache, s.point_cloud_cache,
           (wrapCursor s + 1) % UINT32_MOD⟩⟩
  | _, _ => none

/-- State after `k` timer firings; `none` once any firing hits
undefined behaviour. -/
def stateAfter (s : NodeState) : Nat → Option NodeState
  | 0 => some s
  | k + 1 => (stateAfter s k).bind fun s2 => (timerCallback s2).map Firing.next

/-- The `(k+1)`-th firing (0-indexed `k`) from state `s`. -/
def firingAt (s : NodeState) (k : Nat) : Option Firing :=
  (stateAfter s k).bind timerCallback

/-- A frame with a non-empty payload, for concrete scheduler states. -/
def mkFrame (t : Int) : Frame := ⟨t, [⟨0, 0, 0, 0⟩]⟩

/-! ## Library-style helper lemmas -/

/-- An index below the length has an element. -/
theorem get_lt {α : Type} :
    ∀ (l : List α) (i : Nat), i < l.length → ∃ a, l.get? i = some a
  | a :: _, 0, _ => ⟨a, rfl⟩
  | _ :: l, i + 1, h => get_lt l i (by simpa using h)
  | [], _, h => absurd h (by simp)

/-- `getD` agrees with a successful `get?`. -/
theorem getD_of_get {α : Type} :
    ∀ (l : List α) (i : Nat) (d a : α), l.get? i = some a → l.getD i d = a
  | a :: _, 0, _, _, h => by simpa [List.getD] using h
  | _ :: l, i + 1, d, b, h => by
      simpa [List.getD] using getD_of_get l i d b (by simpa using h)
  | [], i, _, _, h => by simp at h

/-- Length of `groupWords`: one word per complete 4-byte group. -/
theorem groupWords_length : ∀ bs : List Nat, (groupWords bs).length = bs.length / 4
  | [] => rfl
  | [_] => by simp [groupWords]
  | [_, _] => by simp [groupWords]
  | [_, _, _] => by simp [groupWords]
  | _ :: _ :: _ :: _ :: rest => by
      have ih := groupWords_length rest
      simp only [groupWords, List.length_cons, ih]
      omega

/-- Length of the reachable buffer prefix: the complete floats, plus
slot `n` when the loop reads it. -/
theorem bufferWords_length (tb : List Nat) :
    (bufferWords tb).length =
      if (tb.length / 4) % 4 = 0 then tb.length / 4 else tb.length / 4 + 1 := by
  by_cases h : (tb.length / 4) % 4 = 0
  · rw [bufferWords, if_pos h, if_pos h, groupWords_length]
  · rw [bufferWords, if_neg h, if_neg h, List.length_append, groupWords_length]
    simp

/-- Length of the copy loop's output: one record per started quadruple,
i.e. `ceil(n / 4)`. -/
theorem pointsFromFloats_length :
    ∀ fl : List Nat, (pointsFromFloats fl).length = (fl.length + 3) / 4
  | [] => rfl
  | [_] => by simp [pointsFromFloats]
  | [_, _] => by simp [pointsFromFloats]
  | [_, _, _] => by simp [pointsFromFloats]
  | _ :: _ :: _ :: _ :: rest => by
      have ih := pointsFromFloats_length rest
      simp only [pointsFromFloats, List.length_cons, ih]
      omega

/-! ## Scheduler lemmas -/

/-- With an in-range successor index, the wait computation is total and
equals `waitAt`. -/
theorem computeWait_eq (ts : List Int) (c0 : Nat) (h : c0 + 1 ≤ ts.length) :
    computeWait ts c0 = some (waitAt ts c0) := by
  by_cases hb : c0 + 1 = ts.length
  · simp [computeWait, waitAt, hb]
  · have hlt1 : c0 + 1 < ts.length := lt_of_le_of_ne h hb
    have hlt0 : c0 < ts.length := Nat.lt_of_succ_lt hlt1
    obtain ⟨t1, h1⟩ := get_lt ts (c0 + 1) hlt1
    obtain ⟨t0, h0⟩ := get_lt ts c0 hlt0
    rw [List.get?_eq_getElem?] at h1 h0
    simp [computeWait, waitAt, hb, h1, h0]

/-- Explicit form of one firing from any reachable cursor `c ≤ cache
length`, for a cache no longer than the timestamp list (the invariant
the constructor loop establishes): the post-wrap cursor is `c` modulo
the cache length, that frame is published, the wait is `waitAt`, and
the cursor advances by one. -/
theorem timerCallback_run (ts : List Int) (cache : List Frame) (c : Nat)
    (hle : cache.length ≤ ts.length) (hpos : 0 < cache.length)
    (h32 : cache.length < UINT32_MOD) (hc : c ≤ cache.length) :
    timerCallback ⟨ts, cache, c⟩ =
      some ⟨c % cache.length, waitAt ts (c % cache.length),
            ⟨ts, cache, c % cache.length + 1⟩⟩ := by
  have hwrap : wrapCursor ⟨ts, cache, c⟩ = c % cache.length := by
    unfold wrapCursor
    by_cases h : c = cache.length
    · simp [h, Nat.mod_self]
    · simp [h, Nat.mod_eq_of_lt (lt_of_le_of_ne hc h)]
  have hlt : c % cache.length < cache.length := Nat.mod_lt c hpos
  obtain ⟨fr, hfr⟩ := get_lt cache (c % cache.length) hlt
  rw [List.get?_eq_getElem?] at hfr
  have hw : computeWait ts (c % cache.length) = some (waitAt ts (c % cache.length)) :=
    computeWait_eq ts _ (le_trans (Nat.succ_le_of_lt hlt) hle)
  have hmod : (c % cache.length + 1) % UINT32_MOD = c % cache.length + 1 :=
    Nat.mod_eq_of_lt (Nat.lt_of_le_of_lt (Nat.succ_le_of_lt hlt) h32)
  simp [timerCallback, hwrap, hfr, hw, hmod]

/-- From a fresh scheduler, the state after `k + 1` firings carries
cursor `k % len + 1`. -/
theorem stateAfter_cycle (ts : List Int) (cache : List Frame)
    (hle : cache.length ≤ ts.length) (hpos : 0 < cache.length)
    (h32 : cache.length < UINT32_MOD) :
    ∀ k, stateAfter ⟨ts, cache, 0⟩ (k + 1) =
      some ⟨ts, cache, k % cache.length + 1⟩
  | 0 => by
      simp [stateAfter, timerCallback_run ts cache 0 hle hpos h32 (Nat.zero_le _)]
  | k + 1 => by
      have ih := stateAfter_cycle ts cache hle hpos h32 k
      have hc : k % cache.length + 1 ≤ cache.length :=
        Nat.succ_le_of_lt (Nat.mod_lt k hpos)
      have hrun := timerCallback_run ts cache (k % cache.length + 1) hle hpos h32 hc
      have hstep : stateAfter ⟨ts, cache, 0⟩ (k + 1 + 1) =
          (stateAfter ⟨ts, cache, 0⟩ (k + 1)).bind
            fun s2 => (timerCallback s2).map Firing.next := rfl
      rw [hstep, ih]
      simp [hrun, Nat.mod_add_mod]

/-- From a fresh scheduler, the `(k+1)`-th firing publishes cursor
`k % len` and installs the wait `waitAt ts (k % len)`. -/
theorem firingAt_cycle (ts : List Int) (cache : List Frame)
    (hle : cache.length ≤ ts.length) (hpos : 0 < cache.length)
    (h32 : cache.length < UINT32_MOD) :
    ∀ k, firingAt ⟨ts, cache, 0⟩ k =
      some ⟨k % cache.length, waitAt ts (k % cache.length),
            ⟨ts, cache, k % cache.length + 1⟩⟩
  | 0 => by
      simp [firingAt, stateAfter,
        timerCallback_run ts cache 0 hle hpos h32 (Nat.zero_le _)]
  | k + 1 => by
      have hst := stateAfter_cycle ts cache hle hpos h32 k
      have hc : k % cache.length + 1 ≤ cache.length :=
        Nat.succ_le_of_lt (Nat.mod_lt k hpos)
      have hrun := timerCallback_run ts cache (k % cache.length + 1) hle hpos h32 hc
      simp [firingAt, hst, hrun, Nat.mod_add_mod]

/-! ## Frame Store lemmas -/

/-- The constructor loop equals positional pairing followed by a filter
on non-empty decodes: skips preserve the relative order of survivors. -/
theorem buildCache_eq (d : Source → List PointCartesian) :
    ∀ (ts : List Int) (srcs : List Source),
      buildCache d ts srcs =
        ((ts.zip srcs).filter fun p => !(d p.2).isEmpty).map fun p => ⟨p.1, d p.2⟩
  | [], srcs => by simp [buildCache]
  | _ :: _, [] => by simp [buildCache]
  | t :: ts, src :: srcs => by
      have ih := buildCache_eq d ts srcs
      by_cases h : (d src).isEmpty
      · simp [buildCache, h, ih]
      · simp [buildCache, h, ih]

/-! ## Concrete instances used by witnesses and counterexamples -/

/-- A 16-byte file: exactly one float quadruple, so it decodes to one
point and is never skipped. -/
def bin16 : List Nat := List.replicate 16 0

/-- A 20-byte file: five complete floats, a trailing partial
quadruple. -/
def bytes20 : List Nat := List.replicate 20 0

/-- A 21-byte file ending in byte `255`: five complete floats plus one
partial-float byte left in buffer slot 5. -/
def bytes21 : List Nat := List.replicate 20 0 ++ [255]

/-- Cache built from timestamps `[1000, 1500, 5000]` and three
decodable sources. -/
def c2Cache : List Frame :=
  buildCache loadPointCloudDataFromBin [1000, 1500, 5000]
    [some bin16, some bin16, some bin16]

/-- Fresh scheduler over `c2Cache`. -/
def c2State : NodeState := ⟨[1000, 1500, 5000], c2Cache, 0⟩

/-- The expected wait cycle for `c2State`. -/
def c2Waits (r : Nat) : Int :=
  if r = 0 then 500 else if r = 1 then 3500 else BOUNDARY_WAIT_NS

/-- Fresh scheduler for timestamps `[1000, 1500, 5000]` whose third
source is unreadable: the build skips it, leaving a 2-frame cache. -/
def skipState : NodeState :=
  ⟨[1000, 1500, 5000],
   buildCache loadPointCloudDataFromBin [1000, 1500, 5000]
     [some bin16, some bin16, none], 0⟩

/-- A two-frame cache. -/
def twoFrames : List Frame := [mkFrame 10, mkFrame 20]

/-- A two-frame cache for the non-monotonic timestamp example. -/
def twoFrames900 : List Frame := [mkFrame 1000, mkFrame 900]

/-- A one-frame cache. -/
def oneFrame : List Frame := [mkFrame 1000]

/-! ## Claims -/

/-- C1: for every frame sequence of length `N ≥ 2` with no skipped
sources (timestamp list and frame cache both of length `N`, with `N`
representable in the `uint32` cursor), emissions from a fresh scheduler
occur strictly in cursor order: firing `k` publishes frame `k % N`;
after exactly `N` emissions the cursor equals `N` (one full cycle), and
the `N+1`-th emission publishes frame 0 again because the wraparound
reset happens before delivery. -/
theorem c1_cyclic_order (ts : List Int) (cache : List Frame) (N : Nat)
    (hts : ts.length = N) (hcache : cache.length = N) (hN : 2 ≤ N)
    (h32 : N < UINT32_MOD) :
    (∀ k, (firingAt ⟨ts, cache, 0⟩ k).map Firing.published = some (k % N))
    ∧ (stateAfter ⟨ts, cache, 0⟩ N).map NodeState.current_index = some N
    ∧ (firingAt ⟨ts, cache, 0⟩ N).map Firing.published = some 0 := by
  have hle : cache.length ≤ ts.length := by omega
  have hpos : 0 < cache.length := by omega
  have h32c : cache.length < UINT32_MOD := by omega
  refine ⟨fun k => ?_, ?_, ?_⟩
  · rw [firingAt_cycle ts cache hle hpos h32c k]
    simp [hcache]
  · obtain ⟨M, hM⟩ : ∃ M, N = M + 1 := ⟨N - 1, by omega⟩
    have hMlt : M % cache.length = M := Nat.mod_eq_of_lt (by omega)
    rw [hM, stateAfter_cycle ts cache hle hpos h32c M]
    simp [hMlt, hM]
  · rw [firingAt_cycle ts cache hle hpos h32c N]
    simp [hcache, Nat.mod_self]

/-- Witness for `c1_cyclic_order` at a concrete two-frame sequence. -/
theorem c1_cyclic_order_witness :
    (firingAt ⟨[10, 20], [mkFrame 10, mkFrame 20], 0⟩ 2).map Firing.published
      = some (2 % 2)
    ∧ (stateAfter ⟨[10, 20], [mkFrame 10, mkFrame 20], 0⟩ 2).map
        NodeState.current_index = some 2 :=
  ⟨(c1_cyclic_order [10, 20] [mkFrame 10, mkFrame 20] 2 rfl rfl (by decide)
      (by decide)).1 2,
   (c1_cyclic_order [10, 20] [mkFrame 10, mkFrame 20] 2 rfl rfl (by decide)
      (by decide)).2.1⟩

/-- C2: at every firing whose post-wrap cursor `c0` satisfies
`c0 + 1 ≠` frame-sequence length (for a cache no longer than the
timestamp list, the invariant the constructor establishes), the
installed wait is `timestamp[c0+1] - timestamp[c0]` nanoseconds; and
for timestamps `[1000, 1500, 5000]` with three decodable sources the
waits cycle `500, 3500, boundary fallback` indefinitely. -/
theorem c2_wait_rule :
    (∀ (ts : List Int) (cache : List Frame) (c : Nat),
        cache.length ≤ ts.length → 0 < cache.length →
        cache.length < UINT32_MOD → c ≤ cache.length →
        c % cache.length + 1 ≠ cache.length →
        (timerCallback ⟨ts, cache, c⟩).map Firing.wait
          = some (ts.getD (c % cache.length + 1) 0 - ts.getD (c % cache.length) 0))
    ∧ ∀ k, (firingAt c2State k).map Firing.wait = some (c2Waits (k % 3)) := by
  constructor
  · intro ts cache c hle hpos h32 hc hne
    have hlt : c % cache.length < cache.length := Nat.mod_lt c hpos
    have hle2 : c % cache.length + 1 ≤ cache.length := Nat.succ_le_of_lt hlt
    have hnets : c % cache.length + 1 ≠ ts.length := fun hEq =>
      hne (le_antisymm hle2 (hEq ▸ hle))
    rw [timerCallback_run ts cache c hle hpos h32 hc]
    simp [waitAt, hnets]
  · intro k
    have hlen : c2Cache.length = 3 := by decide
    have hcyc := firingAt_cycle [1000, 1500, 5000] c2Cache (by decide) (by decide)
      (by decide) k
    rw [hlen] at hcyc
    have hstate : c2State = NodeState.mk [1000, 1500, 5000] c2Cache 0 := rfl
    rw [hstate, hcyc]
    have h3 : k % 3 = 0 ∨ k % 3 = 1 ∨ k % 3 = 2 := by omega
    rcases h3 with h | h | h <;> rw [h] <;> decide

/-- Witness for `c2_wait_rule`: the first firing installs wait 500 ns,
the fifth (cursor 1 after one wraparound) installs 3500 ns. -/
theorem c2_wait_rule_witness :
    (timerCallback ⟨[1000, 1500, 5000], c2Cache, 0⟩).map Firing.wait
      = some (([1000, 1500, 5000] : List Int).getD (0 % c2Cache.length + 1) 0
              - ([1000, 1500, 5000] : List Int).getD (0 % c2Cache.length) 0)
    ∧ (firingAt c2State 4).map Firing.wait = some (c2Waits (4 % 3)) :=
  ⟨c2_wait_rule.1 [1000, 1500, 5000] c2Cache 0 (by decide) (by decide) (by decide)
      (by decide) (by decide),
   c2_wait_rule.2 4⟩

/-- C3 (code bug): with an empty dataset (0 timestamps, 0 sources) the
count check passes and the constructor then reads `timestamp_cache_[1]`
and `timestamp_cache_[0]` out of bounds at source line 176 while arming
the first timer (undefined behaviour, modelled as
`TimestampIndexOutOfRange`); no `SchedulerError::EmptySequence`
fail-fast path exists anywhere in the code. -/
theorem c3_empty_sequence :
    nodeInit loadPointCloudDataFromBin [] [] =
      Except.error BuildError.TimestampIndexOutOfRange := rfl

/-- C4 counterexample: a 20-byte file reads `n = 5` complete floats;
`floor(5/4) = 1`, but the decoder returns 2 records — the trailing
partial quadruple is not discarded. -/
theorem c4_floor_counterexample :
    (bytes20.take BUFFER_BYTES).length / 4 = 5
    ∧ (loadPointCloudDataFromBin (some bytes20)).length = 2
    ∧ (loadPointCloudDataFromBin (some bytes20)).length ≠ 5 / 4 := by decide

/-- C4 amended: the decoder returns exactly `ceil(n/4)` records, `n`
being the number of complete little-endian float32 values read; a
trailing partial quadruple (`n` not divisible by 4) is not discarded
but completed from the remaining buffer slots — whose low bytes hold
the file's trailing partial-float bytes, the rest being zero.
Concretely, the 21-byte file ending in byte `255` decodes to a second
record with `y_m` bit pattern 255. -/
theorem c4_ceil_records :
    (∀ bytes : List Nat,
        (loadPointCloudDataFromBin (some bytes)).length
          = ((bytes.take BUFFER_BYTES).length / 4 + 3) / 4)
    ∧ (loadPointCloudDataFromBin (some bytes21)).length = 2
    ∧ loadPointCloudDataFromBin (some bytes21) =
        [⟨0, 0, 0, 0⟩, ⟨0, 255, 0, 0⟩] := by
  refine ⟨fun bytes => ?_, by decide, by decide⟩
  show (pointsFromFloats (bufferWords (bytes.take BUFFER_BYTES))).length = _
  rw [pointsFromFloats_length, bufferWords_length]
  by_cases h : ((bytes.take BUFFER_BYTES).length / 4) % 4 = 0
  · rw [if_pos h]
  · rw [if_neg h]
    omega

/-- C5 amended: the boundary fallback is keyed to the *timestamp
count*, not to the frame-sequence length: a firing computes the 100 ms
fallback precisely when the post-wrap cursor + 1 equals
`timestamp_cache_.size()`, and otherwise computes the timestamp
difference — so on a sequence shortened by skips, the firing at the
last frame index takes the difference branch instead of the
fallback. -/
theorem c5_fallback_on_timestamp_count (ts : List Int) (cache : List Frame)
    (c : Nat) (hle : cache.length ≤ ts.length) (hpos : 0 < cache.length)
    (h32 : cache.length < UINT32_MOD) (hc : c ≤ cache.length) :
    (c % cache.length + 1 = ts.length →
      (timerCallback ⟨ts, cache, c⟩).map Firing.wait = some BOUNDARY_WAIT_NS)
    ∧ (c % cache.length + 1 ≠ ts.length →
      (timerCallback ⟨ts, cache, c⟩).map Firing.wait
        = some (ts.getD (c % cache.length + 1) 0 - ts.getD (c % cache.length) 0)) := by
  rw [timerCallback_run ts cache c hle hpos h32 hc]
  constructor
  · intro hlast
    simp [waitAt, hlast]
  · intro hne
    simp [waitAt, hne]

/-- Witness for `c5_fallback_on_timestamp_count`: with 2 timestamps and
2 frames, cursor 1 takes the fallback; with 3 timestamps and 2 frames,
cursor 1 takes the difference branch. -/
theorem c5_fallback_witness :
    (timerCallback ⟨[10, 20], twoFrames, 1⟩).map Firing.wait
      = some BOUNDARY_WAIT_NS
    ∧ (timerCallback ⟨[1000, 1500, 5000], twoFrames, 1⟩).map Firing.wait
        = some (([1000, 1500, 5000] : List Int).getD (1 % twoFrames.length + 1) 0
                - ([1000, 1500, 5000] : List Int).getD (1 % twoFrames.length) 0) :=
  ⟨(c5_fallback_on_timestamp_count [10, 20] twoFrames 1 (by decide) (by decide)
      (by decide) (by decide)).1 (by decide),
   (c5_fallback_on_timestamp_count [1000, 1500, 5000] twoFrames 1 (by decide)
      (by decide) (by decide) (by decide)).2 (by decide)⟩

/-- C5 counterexample: timestamps `[1000, 1500, 5000]` with the third
source unreadable build a 2-frame sequence; the second firing sits at
the last frame index (1) yet installs wait `3500` ns (the timestamp
difference), not the 100 ms fallback the claim requires. -/
theorem c5_skip_counterexample :
    skipState.point_cloud_cache.length = 2
    ∧ (firingAt skipState 1).map Firing.published = some 1
    ∧ (firingAt skipState 1).map Firing.wait = some 3500
    ∧ (firingAt skipState 1).map Firing.wait ≠ some BOUNDARY_WAIT_NS := by
  decide

/-- C6: for every decoder and all inputs whose source count differs
from the timestamp count, construction fails with the count-mismatch
error; the result is independent of the decoder (no source is decoded)
and of all list content. -/
theorem c6_count_mismatch (d : Source → List PointCartesian)
    (ts : List Int) (srcs : List Source) (hne : srcs.length ≠ ts.length) :
    nodeInit d ts srcs = Except.error BuildError.CountMismatch := by
  simp [nodeInit, hne]

/-- Witness for `c6_count_mismatch`. -/
theorem c6_count_mismatch_witness :
    nodeInit loadPointCloudDataFromBin [1000] [] =
      Except.error BuildError.CountMismatch :=
  c6_count_mismatch loadPointCloudDataFromBin [1000] [] (by decide)

/-- C7: for equal-length inputs of length ≥ 1 the built frame sequence
has length at most the input length and equals the positional pairing
filtered to non-empty decodes (so the relative input order of
non-skipped items is preserved); an unreadable source decodes to `[]`,
hence is skipped by exactly the same emptiness test as a zero-point
decode, and the build as a whole still succeeds. -/
theorem c7_build_skips (d : Source → List PointCartesian)
    (ts : List Int) (srcs : List Source)
    (hlen : srcs.length = ts.length) (hpos : 1 ≤ ts.length) :
    (buildCache d ts srcs).length ≤ ts.length
    ∧ (buildCache d ts srcs
        = ((ts.zip srcs).filter fun p => !(d p.2).isEmpty).map
            fun p => (⟨p.1, d p.2⟩ : Frame))
    ∧ loadPointCloudDataFromBin none = [] := by
  refine ⟨?_, buildCache_eq d ts srcs, rfl⟩
  rw [buildCache_eq d ts srcs]
  have h1 : (((ts.zip srcs).filter fun p => !(d p.2).isEmpty).map
      fun p => (⟨p.1, d p.2⟩ : Frame)).length ≤ (ts.zip srcs).length := by
    rw [List.length_map]
    exact List.length_filter_le _ _
  have h2 : (ts.zip srcs).length ≤ ts.length := by
    rw [List.length_zip]
    exact Nat.min_le_left _ _
  exact le_trans h1 h2

/-- Witness for `c7_build_skips`: a build from two timestamps where the
second source is unreadable. -/
theorem c7_build_skips_witness :
    (buildCache loadPointCloudDataFromBin [1000, 2000] [some bin16, none]).length
      ≤ ([1000, 2000] : List Int).length :=
  (c7_build_skips loadPointCloudDataFromBin [1000, 2000] [some bin16, none]
    (by decide) (by decide)).1

/-- C8: the computed wait is never clamped: whenever the
timestamp-difference branch is taken and
`timestamp[c0+1] ≤ timestamp[c0]`, the zero-or-negative difference is
installed unmodified; in particular timestamps `[1000, 900]` give a
wait of `-100` ns. -/
theorem c8_no_clamp :
    (∀ (ts : List Int) (cache : List Frame) (c : Nat),
        cache.length ≤ ts.length → 0 < cache.length →
        cache.length < UINT32_MOD → c ≤ cache.length →
        c % cache.length + 1 ≠ ts.length →
        ts.getD (c % cache.length + 1) 0 ≤ ts.getD (c % cache.length) 0 →
        (timerCallback ⟨ts, cache, c⟩).map Firing.wait
            = some (ts.getD (c % cache.length + 1) 0 - ts.getD (c % cache.length) 0)
          ∧ ts.getD (c % cache.length + 1) 0 - ts.getD (c % cache.length) 0 ≤ 0)
    ∧ (timerCallback ⟨[1000, 900], twoFrames900, 0⟩).map Firing.wait
        = some (-100) := by
  constructor
  · intro ts cache c hle hpos h32 hc hne hmono
    rw [timerCallback_run ts cache c hle hpos h32 hc]
    exact ⟨by simp [waitAt, hne], by omega⟩
  · decide

/-- Witness for `c8_no_clamp` at the non-monotonic timestamps
`[1000, 900]`. -/
theorem c8_no_clamp_witness :
    ((timerCallback ⟨[1000, 900], twoFrames900, 0⟩).map Firing.wait
        = some (([1000, 900] : List Int).getD (0 % twoFrames900.length + 1) 0
                - ([1000, 900] : List Int).getD (0 % twoFrames900.length) 0))
    ∧ ([1000, 900] : List Int).getD (0 % twoFrames900.length + 1) 0
        - ([1000, 900] : List Int).getD (0 % twoFrames900.length) 0 ≤ 0 :=
  c8_no_clamp.1 [1000, 900] twoFrames900 0 (by decide) (by decide) (by decide)
    (by decide) (by decide) (by decide)

/-- C9 (code bug): for a single-frame dataset every timer firing does
compute the boundary fallback (fixed-rate single-frame repeat), but the
very first armed interval — `timestamp_cache_[1] - timestamp_cache_[0]`
at source line 176 — is an out-of-bounds read for a one-element
timestamp list (undefined behaviour, modelled as `none`), not the
fallback the claim requires it to be. -/
theorem c9_single_frame :
    initialInterval [1000] = none
    ∧ ∀ k, (firingAt ⟨[1000], oneFrame, 0⟩ k).map Firing.wait
        = some BOUNDARY_WAIT_NS := by
  refine ⟨rfl, fun k => ?_⟩
  have hcyc := firingAt_cycle [1000] oneFrame (by decide) (by decide) (by decide) k
  have hlen : oneFrame.length = 1 := rfl
  rw [hlen] at hcyc
  rw [hcyc, Nat.mod_one]
  decide

/-- C10: the decoder reads at most `BUFFER_FLOATS` floats
(`BUFFER_BYTES` bytes): every decoded frame has at most 250000 points,
file content past the 4 MB buffer is silently ignored, and the declared
`MAX_POINTS` bound of 200000 is never enforced — a full 4 MB file
decodes to 250000 points. -/
theorem c10_buffer_cap :
    (∀ bytes : List Nat,
        (loadPointCloudDataFromBin (some bytes)).length ≤ 250000)
    ∧ (∀ bytes : List Nat,
        loadPointCloudDataFromBin (some bytes)
          = loadPointCloudDataFromBin (some (bytes.take BUFFER_BYTES)))
    ∧ MAX_POINTS
        < (loadPointCloudDataFromBin (some (List.replicate BUFFER_BYTES 0))).length := by
  have hload : ∀ bytes : List Nat,
      (loadPointCloudDataFromBin (some bytes)).length
        = ((bufferWords (bytes.take BUFFER_BYTES)).length + 3) / 4 := fun bytes =>
    pointsFromFloats_length (bufferWords (bytes.take BUFFER_BYTES))
  refine ⟨fun bytes => ?_, fun bytes => ?_, ?_⟩
  · rw [hload, bufferWords_length]
    have h1 : (bytes.take BUFFER_BYTES).length ≤ BUFFER_BYTES := by
      rw [List.length_take]
      exact Nat.min_le_left _ _
    have h2 : BUFFER_BYTES = 4000000 := rfl
    by_cases h : ((bytes.take BUFFER_BYTES).length / 4) % 4 = 0
    · rw [if_pos h]
      omega
    · rw [if_neg h]
      omega
  · show pointsFromFloats (bufferWords (bytes.take BUFFER_BYTES))
        = pointsFromFloats (bufferWords ((bytes.take BUFFER_BYTES).take BUFFER_BYTES))
    rw [List.take_take, Nat.min_self]
  · rw [hload, bufferWords_length]
    have h3 : ((List.replicate BUFFER_BYTES (0 : Nat)).take BUFFER_BYTES).length
        = BUFFER_BYTES := by
      rw [List.length_take, List.length_replicate]
      exact Nat.min_self _
    rw [h3]
    decide

end KittiNode
